import Mathlib

/-!
A formal model of `main.py` from the comic-slideshows repository.

The program is a three-stage pipeline: a scenario generator (one call to a
language-model service), a pure prompt composer `create_final_prompt`, and a
fan-out over four image-generation calls collected by `main`.  The two
external services are modelled as oracle arguments (their outcome is an input
of the model); everything the repository itself computes — the prompt
template, the per-slide engagement lookup, the file naming, the error
conversion to empty results, and the orchestration trace — is translated
directly from the source.
-/

set_option maxHeartbeats 1000000
set_option maxRecDepth 100000

namespace ComicSlides

/-- Data model of `ScenarioPair` (main.py lines 16-20): four text fields. -/
structure ScenarioPair where
  success : String
  work : String
  top_text : String
  bottom_text : String
  deriving DecidableEq

/-- The slide-1 engagement instruction string (main.py line 35). -/
def hookMarker : String :=
  "<background_details>MANDATORY: Include provocative, funny, or attention-grabbing background elements that boost engagement. These can be edgy, non-tasteful, or controversial - whatever stops the scroll. NO POLITICAL CONTENT. Examples: provocative posters, funny signs, ironic objects, visual jokes that complement the hook message.</background_details>"

/-- The slide-3 engagement instruction string (main.py line 37). -/
def subtleMarker : String :=
  "<background_details>SUBTLE PROVOCATIVE: Add small, hidden provocative elements in the background that viewers might notice on second look. Could include subtle sexual imagery, suggestive objects, or provocative details that don\x27t overwhelm the main scene but add engagement. NO POLITICAL CONTENT. Keep it tasteful but noticeable.</background_details>"

/-- The default (clean) engagement instruction string (main.py line 39). -/
def cleanMarker : String :=
  "<background_details>CLEAN FOCUS: Keep background simple and focused on the main message without distracting elements.</background_details>"

/-- The `engagement_instruction` selection (main.py lines 33-39):
slide 1 gets the hook text, slide 3 the subtle text, all others clean. -/
def engagementOf (slide_number : Int) : String :=
  if slide_number = 1 then hookMarker
  else if slide_number = 3 then subtleMarker
  else cleanMarker

/-- The inline conditional in the `engagement_strategy` line (main.py line 102). -/
def strategyOf (slide_number : Int) : String :=
  if slide_number = 1 then "MANDATORY edgy elements for hook (NO POLITICS)"
  else if slide_number = 3 then "SUBTLE provocative elements (NO POLITICS)"
  else "CLEAN focus on message"

/-- Template text of the returned f-string up to the `slide_number` splice
(main.py lines 41-102). -/
def tmplHead : String :=
  "<instructions>
<format>
- Single image, exactly 1024x1536 pixels
- Vertically stacked 2-panel comic
- Panels MUST blend seamlessly with NO dividing line or border between them
- Artwork MUST extend to all four edges (full-bleed, no margins/padding)
</format>

<style_guide>
<consistency>ABSOLUTE CRITICAL: This comic MUST be VISUALLY IDENTICAL in style to all other comics in the series. NO VARIATION ALLOWED. Use the EXACT same art style, character design, color palette, and rendering approach across ALL 4 comics.</consistency>

<mandatory_style>LOCKED CARTOON STYLE: Modern, vibrant, high-quality cartoon illustration style with these EXACT characteristics:
- Bright, saturated colors with warm lighting
- Smooth, polished cartoon rendering (like Pixar/Disney style)
- Characters with exaggerated but appealing cartoon features
- Clean, rounded character designs with soft edges
- Vibrant backgrounds with rich color palettes
- NO realistic or semi-realistic rendering
- NO muted or desaturated colors
- NO photorealistic elements
- Consistent cartoon proportions and facial features across ALL characters
</mandatory_style>

<characters>
- IDENTICAL character design across ALL panels and ALL comics
- Cartoon-style with exaggerated but appealing features
- Same facial structure, eye shape, nose, and mouth design
- Consistent body proportions and clothing style
- Bright, vibrant character coloring
- Expressive cartoon faces with clear emotions
</characters>

<visual_treatment>
- Bright, vibrant color palette with warm lighting
- Smooth cartoon shading with soft gradients
- Rich, saturated colors throughout
- Dynamic but cartoon-appropriate lighting
- NO realistic textures or photographic elements
- Consistent cartoon rendering quality across all elements
</visual_treatment>

<content_guidelines>
- NO POLITICAL CONTENT of any kind
</content_guidelines>

<text_formatting>
- Text overlaid directly on artwork in clean, legible, lowercase, sans-serif font
- NO shapes, boxes, cards, speech bubbles, or thought bubbles around text
- Text placed directly on the image surface
- ABSOLUTE CRITICAL: Text must be positioned at the BOTTOM CENTER of each panel with MANDATORY margins from all edges
- ABSOLUTE CRITICAL: Text MUST be completely visible within panel boundaries - NO text can be cut off or extend beyond panel edges
- ABSOLUTE CRITICAL: Leave at least 40-60 pixels margin from the bottom edge of each panel
- ABSOLUTE CRITICAL: Leave at least 30-40 pixels margin from left and right edges of each panel
- Text size must be IDENTICAL across all panels and all comics - use a large, bold, consistent font size
- Text should be approximately 24-28pt equivalent size for readability (smaller if needed to fit)
- Text must be horizontally centered and have adequate margin from ALL panel edges
- Text color should be white or light colored for maximum readability
- If text is too long, reduce font size slightly to ensure it fits completely within margins
</text_formatting>

<engagement_strategy>
Slide "

/-- Template text between the strategy conditional and `scenario.success`
(main.py lines 102-108). -/
def tmplAfterStrategy : String :=
  "\n</engagement_strategy>\n</style_guide>\n\n<content>\n<top_panel>\n<scene>"

/-- Template text between `scenario.success` and the first
`engagement_instruction` splice (main.py lines 108-109). -/
def tmplAfterSuccess : String := "</scene>\n"

/-- Template text between the first `engagement_instruction` and
`scenario.top_text` (main.py lines 109-112). -/
def tmplTopPanelMid : String :=
  "\n<text_position>Bottom center of the top panel, with MANDATORY 40-60px margin from bottom edge and 30-40px margin from left/right edges</text_position>\n<text_size>Large, bold, consistent sizing (24-28pt equivalent) - MUST fit completely within panel margins</text_size>\n<text>"

/-- Template text between `scenario.top_text` and `scenario.work`
(main.py lines 112-116). -/
def tmplBetweenPanels : String :=
  "</text>\n</top_panel>\n\n<bottom_panel>\n<scene>Same character from top panel performing the underlying habit: "

/-- Template text between `scenario.work` and the second
`engagement_instruction` splice (main.py lines 116-117). -/
def tmplAfterWork : String :=
  ". Character could be taking a picture of their progress (reflecting \x27proofs\x27 app concept).</scene>\n"

/-- Template text between the second `engagement_instruction` and
`scenario.bottom_text` (main.py lines 117-120). -/
def tmplBottomPanelMid : String :=
  "\n<text_position>Bottom center of the bottom panel, with MANDATORY 40-60px margin from bottom edge and 30-40px margin from left/right edges</text_position>\n<text_size>Large, bold, consistent sizing (24-28pt equivalent) - MUST match top panel exactly and fit completely within panel margins</text_size>\n<text>"

/-- Closing template text (main.py lines 120-123). -/
def tmplTail : String := "</text>\n</bottom_panel>\n</content>\n</instructions>"

/-- The prompt composer `create_final_prompt` (main.py lines 29-123):
the returned f-string, written as concatenation of the fixed template
chunks with the spliced values, in source order.  `slide_number` is a
Python `int`, modelled as `Int`. -/
def create_final_prompt (scenario : ScenarioPair) (slide_number : Int) : String :=
  tmplHead ++ toString slide_number ++ ": " ++ strategyOf slide_number
    ++ tmplAfterStrategy ++ scenario.success
    ++ tmplAfterSuccess ++ engagementOf slide_number
    ++ tmplTopPanelMid ++ scenario.top_text
    ++ tmplBetweenPanels ++ scenario.work
    ++ tmplAfterWork ++ engagementOf slide_number
    ++ tmplBottomPanelMid ++ scenario.bottom_text
    ++ tmplTail

/-- `t` occurs as a contiguous substring of `s`. -/
def containsStr (s t : String) : Prop := ∃ a b : String, s = a ++ t ++ b

lemma containsStr_of_eq (s a t b : String) (h : s = a ++ t ++ b) :
    containsStr s t := ⟨a, b, h⟩

lemma cfp_contains_engagement (p : ScenarioPair) (n : Int) :
    containsStr (create_final_prompt p n) (engagementOf n) := by
  refine containsStr_of_eq _
    (tmplHead ++ toString n ++ ": " ++ strategyOf n ++ tmplAfterStrategy
      ++ p.success ++ tmplAfterSuccess) (engagementOf n)
    (tmplTopPanelMid ++ p.top_text ++ tmplBetweenPanels ++ p.work
      ++ tmplAfterWork ++ engagementOf n ++ tmplBottomPanelMid ++ p.bottom_text
      ++ tmplTail) ?_
  simp only [create_final_prompt, String.append_assoc]

lemma cfp_contains_success (p : ScenarioPair) (n : Int) :
    containsStr (create_final_prompt p n) p.success := by
  refine containsStr_of_eq _
    (tmplHead ++ toString n ++ ": " ++ strategyOf n ++ tmplAfterStrategy)
    p.success
    (tmplAfterSuccess ++ engagementOf n ++ tmplTopPanelMid ++ p.top_text
      ++ tmplBetweenPanels ++ p.work ++ tmplAfterWork ++ engagementOf n
      ++ tmplBottomPanelMid ++ p.bottom_text ++ tmplTail) ?_
  simp only [create_final_prompt, String.append_assoc]

lemma cfp_contains_top_text (p : ScenarioPair) (n : Int) :
    containsStr (create_final_prompt p n) p.top_text := by
  refine containsStr_of_eq _
    (tmplHead ++ toString n ++ ": " ++ strategyOf n ++ tmplAfterStrategy
      ++ p.success ++ tmplAfterSuccess ++ engagementOf n ++ tmplTopPanelMid)
    p.top_text
    (tmplBetweenPanels ++ p.work ++ tmplAfterWork ++ engagementOf n
      ++ tmplBottomPanelMid ++ p.bottom_text ++ tmplTail) ?_
  simp only [create_final_prompt, String.append_assoc]

lemma cfp_contains_work (p : ScenarioPair) (n : Int) :
    containsStr (create_final_prompt p n) p.work := by
  refine containsStr_of_eq _
    (tmplHead ++ toString n ++ ": " ++ strategyOf n ++ tmplAfterStrategy
      ++ p.success ++ tmplAfterSuccess ++ engagementOf n ++ tmplTopPanelMid
      ++ p.top_text ++ tmplBetweenPanels)
    p.work
    (tmplAfterWork ++ engagementOf n ++ tmplBottomPanelMid ++ p.bottom_text
      ++ tmplTail) ?_
  simp only [create_final_prompt, String.append_assoc]

lemma cfp_contains_bottom_text (p : ScenarioPair) (n : Int) :
    containsStr (create_final_prompt p n) p.bottom_text := by
  refine containsStr_of_eq _
    (tmplHead ++ toString n ++ ": " ++ strategyOf n ++ tmplAfterStrategy
      ++ p.success ++ tmplAfterSuccess ++ engagementOf n ++ tmplTopPanelMid
      ++ p.top_text ++ tmplBetweenPanels ++ p.work ++ tmplAfterWork
      ++ engagementOf n ++ tmplBottomPanelMid)
    p.bottom_text tmplTail ?_
  simp only [create_final_prompt, String.append_assoc]

lemma engagementOf_one : engagementOf 1 = hookMarker := rfl

lemma engagementOf_two : engagementOf 2 = cleanMarker := rfl

lemma engagementOf_three : engagementOf 3 = subtleMarker := rfl

lemma engagementOf_four : engagementOf 4 = cleanMarker := rfl

/-- Claim C1: for every well-formed `ScenarioPair`, the composed prompt
contains the "hook" (edgy) engagement marker at slide position 1, the
"subtle" provocative marker at slide position 3, and the "clean" focus
marker at slide positions 2 and 4. -/
theorem cfp_engagement_markers (p : ScenarioPair) :
    containsStr (create_final_prompt p 1) hookMarker ∧
    containsStr (create_final_prompt p 3) subtleMarker ∧
    containsStr (create_final_prompt p 2) cleanMarker ∧
    containsStr (create_final_prompt p 4) cleanMarker := by
  refine ⟨?_, ?_, ?_, ?_⟩
  · exact engagementOf_one ▸ cfp_contains_engagement p 1
  · exact engagementOf_three ▸ cfp_contains_engagement p 3
  · exact engagementOf_two ▸ cfp_contains_engagement p 2
  · exact engagementOf_four ▸ cfp_contains_engagement p 4

/-- The concrete scenario pair named in the specification. -/
def marathonPair : ScenarioPair :=
  { success := "celebrating a marathon finish"
    work := "lacing up shoes for a 5am run"
    top_text := "you sleep in"
    bottom_text := "i show up" }

/-- Claim C2: for every well-formed `ScenarioPair` and every slide position,
the composed prompt contains all four input fields verbatim as substrings;
in particular the marathon example at slide position 1 contains its four
literal field strings plus the hook marker text. -/
theorem cfp_fields_verbatim (p : ScenarioPair) (n : Int) :
    (containsStr (create_final_prompt p n) p.success ∧
      containsStr (create_final_prompt p n) p.work ∧
      containsStr (create_final_prompt p n) p.top_text ∧
      containsStr (create_final_prompt p n) p.bottom_text) ∧
    (containsStr (create_final_prompt marathonPair 1) "celebrating a marathon finish" ∧
      containsStr (create_final_prompt marathonPair 1) "lacing up shoes for a 5am run" ∧
      containsStr (create_final_prompt marathonPair 1) "you sleep in" ∧
      containsStr (create_final_prompt marathonPair 1) "i show up" ∧
      containsStr (create_final_prompt marathonPair 1) hookMarker) := by
  refine ⟨⟨cfp_contains_success p n, cfp_contains_work p n,
    cfp_contains_top_text p n, cfp_contains_bottom_text p n⟩,
    cfp_contains_success marathonPair 1, cfp_contains_work marathonPair 1,
    cfp_contains_top_text marathonPair 1, cfp_contains_bottom_text marathonPair 1,
    engagementOf_one ▸ cfp_contains_engagement marathonPair 1⟩

/-- Claim C8: `create_final_prompt` is total on well-formed pairs and
arbitrary integer slide positions: for every input it returns a definite,
nonempty string (it always begins with the fixed template head). -/
theorem cfp_total (p : ScenarioPair) (n : Int) :
    (∃ rest : String, create_final_prompt p n = tmplHead ++ rest) ∧
    0 < (create_final_prompt p n).length := by
  constructor
  · refine ⟨toString n ++ ": " ++ strategyOf n ++ tmplAfterStrategy
      ++ p.success ++ tmplAfterSuccess ++ engagementOf n ++ tmplTopPanelMid
      ++ p.top_text ++ tmplBetweenPanels ++ p.work ++ tmplAfterWork
      ++ engagementOf n ++ tmplBottomPanelMid ++ p.bottom_text ++ tmplTail, ?_⟩
    simp only [create_final_prompt, String.append_assoc]
  · have h : 0 < tmplAfterSuccess.length := by decide
    simp only [create_final_prompt, String.length_append]
    omega

/-- Claim C9: `create_final_prompt` is pure and deterministic: two calls
with identical arguments return identical output text (and, being modelled
as a function into `String`, it has no side effects). -/
theorem cfp_deterministic (p q : ScenarioPair) (n m : Int)
    (hpq : p = q) (hnm : n = m) :
    create_final_prompt p n = create_final_prompt q m := by
  subst hpq; subst hnm; rfl

/-- Witness for `cfp_deterministic` at the concrete marathon pair. -/
theorem cfp_deterministic_witness :
    marathonPair = marathonPair ∧ (1 : Int) = 1 ∧
    create_final_prompt marathonPair 1 = create_final_prompt marathonPair 1 :=
  ⟨rfl, rfl, cfp_deterministic marathonPair marathonPair 1 1 rfl rfl⟩

/-- Outcome of the single language-model call made by `generate_scenarios`
(main.py lines 131-210).  The service is a black-box collaborator, so its
behaviour is an input of the model: a parsed structured response, a refusal,
or an exception raised anywhere in the `try` block (network error, malformed
response, schema violation). -/
inductive LMOutcome where
  | parsed (scenarios : List ScenarioPair)
  | refusal (msg : String)
  | transportError (msg : String)

/-- Observable side effects of a run: directory creation, console prints,
the scenario-service request, each image-service request, and file writes. -/
inductive Event where
  | mkdir (path : String)
  | consoleOut (msg : String)
  | scenarioRequest
  | imageRequest (index : Nat) (prompt : String)
  | fileWrite (path : String) (bytes : List Nat)
  deriving DecidableEq

/-- `generate_scenarios` (main.py lines 125-220): returns the parsed list on
success; a refusal is logged and converted to `[]`; any exception in the
`try` block is caught, logged, and converted to `[]`.  The second component
is the list of side effects of the call. -/
def generate_scenarios (o : LMOutcome) : List ScenarioPair × List Event :=
  match o with
  | .parsed l =>
      (l, [.consoleOut "Generating comic scenarios...", .scenarioRequest,
        .consoleOut "Successfully generated scenarios."])
  | .refusal m =>
      ([], [.consoleOut "Generating comic scenarios...", .scenarioRequest,
        .consoleOut ("Scenario generation refused: " ++ m)])
  | .transportError m =>
      ([], [.consoleOut "Generating comic scenarios...", .scenarioRequest,
        .consoleOut ("Error generating scenarios: " ++ m)])

/-- Outcome of one image-generation attempt (the fallible steps inside the
`try` block of `generate_image`, main.py lines 227-242): the service call may
fail in transport, the base64 decode may fail, the file write may fail, or
all three succeed with the given payload and decoded bytes. -/
inductive ImgOutcome where
  | transportErr (msg : String)
  | decodeErr (b64 : String) (msg : String)
  | writeErr (b64 : String) (bytes : List Nat) (msg : String)
  | ok (b64 : String) (bytes : List Nat)

/-- `os.path.join` as used here (folder without trailing slash). -/
def pathJoin (a b : String) : String := a ++ "/" ++ b

/-- `generate_image` (main.py lines 222-245): on success writes the decoded
bytes to `output_folder/comic_{index+1}.png` and returns that path; on any
failure the exception is caught, logged, and `None` is returned.  The second
component is the list of side effects. -/
def generate_image (o : ImgOutcome) (prompt : String) (index : Nat)
    (output_folder : String) : Option String × List Event :=
  let pre := Event.consoleOut ("Generating image " ++ toString (index + 1) ++ "...")
  let req := Event.imageRequest index prompt
  match o with
  | .transportErr m =>
      (none, [pre, req,
        .consoleOut ("Error generating image " ++ toString (index + 1) ++ ": " ++ m)])
  | .decodeErr _ m =>
      (none, [pre, req,
        .consoleOut ("Error generating image " ++ toString (index + 1) ++ ": " ++ m)])
  | .writeErr _ _ m =>
      (none, [pre, req,
        .consoleOut ("Error generating image " ++ toString (index + 1) ++ ": " ++ m)])
  | .ok _ bytes =>
      let filepath := pathJoin output_folder ("comic_" ++ toString (index + 1) ++ ".png")
      (some filepath, [pre, req, .fileWrite filepath bytes,
        .consoleOut ("Successfully saved image " ++ toString (index + 1) ++ " as " ++ filepath)])

/-- Python truthiness of a `str | None` value, as used in
`[r for r in results if r]` (main.py line 288). -/
def pyTruthy : Option String → Bool
  | none => false
  | some s => !s.isEmpty

/-- Completion log of the thread pool: the workers finish in the order given
by `sched` (a permutation of the task indices chosen by the scheduler), and
each completion carries its submission index and the task value. -/
def completions (tasks : List α) : List Nat → List (Nat × α)
  | [] => []
  | j :: tl =>
      match tasks[j]? with
      | some t => (j, t) :: completions tasks tl
      | none => completions tasks tl

/-- `futures[i].result()`: the first completion carrying submission index `i`. -/
def lookupFirst (i : Nat) : List (Nat × α) → Option α
  | [] => none
  | e :: tl => if e.1 = i then some e.2 else lookupFirst i tl

/-- The observable trace of one run of `main`. -/
structure RunTrace where
  outputFolder : String
  events : List Event
  results : List (Option String)

/-- `main` (main.py lines 247-290), parameterised by the wall-clock timestamp
string, the language-model outcome, the per-index image outcomes, and the
completion order `sched` of the four parallel workers.  It creates the
timestamped folder, calls the scenario generator once, exits early on an
empty batch, otherwise composes one prompt per scenario (slide number =
index + 1), runs the image tasks in the pool, gathers `futures[i].result()`
in submission order, and reports the summary count. -/
def main (ts : String) (lm : LMOutcome) (env : Nat → ImgOutcome)
    (sched : List Nat) : RunTrace :=
  let output_folder := "generation_" ++ ts
  let gs := generate_scenarios lm
  let headEv : List Event :=
    [Event.mkdir output_folder,
      Event.consoleOut ("Created output folder: " ++ output_folder)] ++ gs.2
  if gs.1.isEmpty then
    { outputFolder := output_folder
      events := headEv ++ [Event.consoleOut "Could not generate scenarios. Exiting."]
      results := [] }
  else
    let final_prompts :=
      gs.1.enum.map fun pr => create_final_prompt pr.2 (Int.ofNat (pr.1 + 1))
    let tasks :=
      final_prompts.enum.map fun pr => generate_image (env pr.1) pr.2 pr.1 output_folder
    let comps := completions tasks sched
    let results :=
      (List.range tasks.length).map fun i => (lookupFirst i comps).bind Prod.fst
    let successful_images := results.filter pyTruthy
    { outputFolder := output_folder
      events := headEv
        ++ [Event.consoleOut ("Generated " ++ toString final_prompts.length
              ++ " prompts for parallel processing..."),
            Event.consoleOut "Engagement strategy: Slide 1 (edgy), Slide 2 (clean), Slide 3 (subtle provocative), Slide 4 (clean)",
            Event.consoleOut "Starting parallel image generation..."]
        ++ (sched.filterMap fun i => tasks[i]?).flatMap Prod.snd
        ++ ((List.range tasks.length).map fun i =>
              Event.consoleOut ("Completed image " ++ toString (i + 1)))
        ++ [Event.consoleOut ("Slideshow generation complete! Generated "
              ++ toString successful_images.length ++ " out of 4 images."),
            Event.consoleOut ("Images saved in folder: " ++ output_folder)]
      results := results }

/-- File writes recorded in a trace. -/
def writesOf (evs : List Event) : List (String × List Nat) :=
  evs.filterMap fun e =>
    match e with
    | .fileWrite p b => some (p, b)
    | _ => none

/-- Number of image-service requests recorded in a trace. -/
def imageRequestCount (evs : List Event) : Nat :=
  evs.countP fun e =>
    match e with
    | .imageRequest _ _ => true
    | _ => false

/-- Console output recorded in a trace. -/
def consoleOf (evs : List Event) : List String :=
  evs.filterMap fun e =>
    match e with
    | .consoleOut m => some m
    | _ => none

/-- Normal early termination with no image work: no image-service request,
no file written, empty result list, and the exit message printed. -/
def emptyRunOutcome (tr : RunTrace) : Prop :=
  imageRequestCount tr.events = 0 ∧ writesOf tr.events = [] ∧
  tr.results = [] ∧ "Could not generate scenarios. Exiting." ∈ consoleOf tr.events

/-- Claim C5: `generate_scenarios` converts a service refusal and any
transport or parse failure into the empty list rather than an exception
(the model is a total function), and returns the parsed scenario list on
success. -/
theorem generate_scenarios_spec (m : String) (l : List ScenarioPair) :
    (generate_scenarios (.refusal m)).1 = [] ∧
    (generate_scenarios (.transportError m)).1 = [] ∧
    (generate_scenarios (.parsed l)).1 = l :=
  ⟨rfl, rfl, rfl⟩

/-- Claim C4: when the service call, decode and write all succeed,
`generate_image` writes the decoded bytes to
`output_folder/comic_{index+1}.png` and returns that path; on transport,
decode, or write failure it returns `None` (the model is a total function,
so no exception ever reaches the caller). -/
theorem generate_image_spec (p f m b64 : String) (i : Nat) (bytes : List Nat) :
    (generate_image (.ok b64 bytes) p i f).1
        = some (pathJoin f ("comic_" ++ toString (i + 1) ++ ".png")) ∧
    writesOf (generate_image (.ok b64 bytes) p i f).2
        = [(pathJoin f ("comic_" ++ toString (i + 1) ++ ".png"), bytes)] ∧
    (generate_image (.transportErr m) p i f).1 = none ∧
    (generate_image (.decodeErr b64 m) p i f).1 = none ∧
    (generate_image (.writeErr b64 bytes m) p i f).1 = none :=
  ⟨rfl, rfl, rfl, rfl, rfl⟩

/-- Claim C3: when the scenario generator yields an empty batch — whether by
refusal, by a caught error, or by parsing an empty list — `main` makes zero
image-service calls, writes zero files, returns an empty result list, and
terminates normally after printing the exit message. -/
theorem main_zero_scenarios (ts m : String) (env : Nat → ImgOutcome)
    (sched : List Nat) :
    emptyRunOutcome (main ts (.refusal m) env sched) ∧
    emptyRunOutcome (main ts (.transportError m) env sched) ∧
    emptyRunOutcome (main ts (.parsed []) env sched) := by
  refine ⟨⟨rfl, rfl, rfl, ?_⟩, ⟨rfl, rfl, rfl, ?_⟩, ⟨rfl, rfl, rfl, ?_⟩⟩ <;>
    simp [main, generate_scenarios, consoleOf]

/-- Claim C10: `main` creates the timestamped output directory before the
scenario-service request in every run, and a run whose scenario batch is
empty still has the directory-creation effect while writing no files. -/
theorem main_mkdir_first (ts m : String) (lm : LMOutcome)
    (env : Nat → ImgOutcome) (sched : List Nat) :
    (∃ rest, (main ts lm env sched).events
        = Event.mkdir ("generation_" ++ ts) :: rest ∧
      Event.scenarioRequest ∈ rest) ∧
    (Event.mkdir ("generation_" ++ ts) ∈ (main ts (.refusal m) env sched).events ∧
      writesOf (main ts (.refusal m) env sched).events = []) := by
  refine ⟨?_, ?_, rfl⟩
  · cases lm with
    | parsed l =>
      cases l with
      | nil => exact ⟨_, rfl, by simp [generate_scenarios]⟩
      | cons s rest => exact ⟨_, rfl, by simp [generate_scenarios]⟩
    | refusal m2 => exact ⟨_, rfl, by simp [generate_scenarios]⟩
    | transportError m2 => exact ⟨_, rfl, by simp [generate_scenarios]⟩
  · simp [main, generate_scenarios]

lemma lookupFirst_completions_none (tasks : List α) (i : Nat)
    (hi : tasks[i]? = none) :
    ∀ sched : List Nat, lookupFirst i (completions tasks sched) = none := by
  intro sched
  induction sched with
  | nil => rfl
  | cons j tl ih =>
    by_cases hj : j = i
    · subst hj
      simp [completions, hi, ih]
    · cases ht : tasks[j]? with
      | none => simp [completions, ht, ih]
      | some t => simp [completions, ht, lookupFirst, hj, ih]

lemma lookupFirst_completions (tasks : List α) (i : Nat) :
    ∀ sched : List Nat, i ∈ sched →
      lookupFirst i (completions tasks sched) = tasks[i]? := by
  intro sched
  induction sched with
  | nil => intro h; exact absurd h (List.not_mem_nil i)
  | cons j tl ih =>
    intro h
    by_cases hj : j = i
    · subst hj
      cases ht : tasks[j]? with
      | none =>
        simp only [completions, ht]
        exact lookupFirst_completions_none tasks j ht tl
      | some t => simp [completions, ht, lookupFirst]
    · have hmem : i ∈ tl := by
        rcases List.mem_cons.mp h with h1 | h1
        · exact absurd h1.symm hj
        · exact h1
      cases ht : tasks[j]? with
      | none => simp [completions, ht, ih hmem]
      | some t => simp [completions, ht, lookupFirst, hj, ih hmem]

/-- Gathering `futures[i].result()` in submission order recovers exactly the
per-task values whenever every submitted index eventually completes,
independently of the completion order. -/
lemma gather_cover {γ β : Type} (tasks : List (Option γ × β)) (sched : List Nat)
    (h : ∀ i, i < tasks.length → i ∈ sched) :
    ((List.range tasks.length).map fun i =>
        (lookupFirst i (completions tasks sched)).bind Prod.fst)
      = tasks.map Prod.fst := by
  apply List.ext_getElem
  · simp
  · intro n h1 h2
    simp only [List.getElem_map, List.getElem_range]
    have hn : n < tasks.length := by simpa using h2
    rw [lookupFirst_completions tasks n sched (h n hn)]
    rw [List.getElem?_eq_getElem hn]
    rfl

lemma main_results_eq (ts : String) (env : Nat → ImgOutcome) (sched : List Nat)
    (s : ScenarioPair) (rest : List ScenarioPair)
    (hcov : ∀ i, i < (s :: rest).length → i ∈ sched) :
    (main ts (.parsed (s :: rest)) env sched).results
      = (s :: rest).enum.map fun pr =>
          (generate_image (env pr.1)
            (create_final_prompt pr.2 (Int.ofNat (pr.1 + 1))) pr.1
            ("generation_" ++ ts)).1 := by
  have hcov' : ∀ i,
      i < (((s :: rest).enum.map fun pr =>
              create_final_prompt pr.2 (Int.ofNat (pr.1 + 1))).enum.map
            fun pr => generate_image (env pr.1) pr.2 pr.1 ("generation_" ++ ts)).length →
      i ∈ sched := by
    intro i hi
    exact hcov i (by simpa using hi)
  show (main ts (.parsed (s :: rest)) env sched).results = _
  simp only [main, generate_scenarios, List.isEmpty_cons]
  rw [if_neg (by simp)]
  rw [gather_cover _ sched hcov']
  apply List.ext_getElem
  · simp
  · intro n h1 h2
    simp [List.getElem_map, List.getElem_enum]

/-- Claim C7: the `i`-th scenario pair (0-based) is composed with slide
position `i + 1` and handled by image task `i`, whose only possible output
path is `comic_{i+1}.png` in the run folder; the gathered result list is
determined by input order alone, for any completion order `sched` that
completes every submitted task. -/
theorem main_order_stable :
    (∀ (ts : String) (env : Nat → ImgOutcome) (sched : List Nat)
        (s : ScenarioPair) (rest : List ScenarioPair),
      (∀ i, i < (s :: rest).length → i ∈ sched) →
      (main ts (.parsed (s :: rest)) env sched).results
        = (s :: rest).enum.map fun pr =>
            (generate_image (env pr.1)
              (create_final_prompt pr.2 (Int.ofNat (pr.1 + 1))) pr.1
              ("generation_" ++ ts)).1) ∧
    (∀ (o : ImgOutcome) (p f : String) (i : Nat),
      (generate_image o p i f).1 = none ∨
      (generate_image o p i f).1
        = some (pathJoin f ("comic_" ++ toString (i + 1) ++ ".png"))) := by
  constructor
  · intro ts env sched s rest hcov
    exact main_results_eq ts env sched s rest hcov
  · intro o p f i
    cases o with
    | transportErr m => exact Or.inl rfl
    | decodeErr b m => exact Or.inl rfl
    | writeErr b bs m => exact Or.inl rfl
    | ok b bs => exact Or.inr rfl

/-- All-success image environment used as a concrete witness input. -/
def envAllOk : Nat → ImgOutcome := fun _ => .ok "aGk=" [104, 105]

/-- Image environment in which exactly the second submitted task (index 1)
fails with a transport error. -/
def envOneFail : Nat → ImgOutcome := fun i =>
  if i = 1 then .transportErr "connection reset" else .ok "aGk=" [104, 105]

/-- A concrete four-pair batch. -/
def demoBatch : List ScenarioPair :=
  [marathonPair, marathonPair, marathonPair, marathonPair]

/-- Witness for `main_order_stable`: a four-task run gathered under the
out-of-order completion schedule `[2, 0, 3, 1]`. -/
theorem main_order_stable_witness :
    (∀ i, i < (marathonPair :: [marathonPair, marathonPair, marathonPair]).length →
        i ∈ ([2, 0, 3, 1] : List Nat)) ∧
    (main "w0" (.parsed (marathonPair :: [marathonPair, marathonPair, marathonPair]))
        envAllOk [2, 0, 3, 1]).results
      = (marathonPair :: [marathonPair, marathonPair, marathonPair]).enum.map
          (fun pr => (generate_image (envAllOk pr.1)
            (create_final_prompt pr.2 (Int.ofNat (pr.1 + 1))) pr.1
            ("generation_" ++ "w0")).1) :=
  ⟨by decide,
    main_order_stable.1 "w0" envAllOk [2, 0, 3, 1] marathonPair
      [marathonPair, marathonPair, marathonPair] (by decide)⟩

/-- Claim C6: whenever the run proceeds past scenario generation, the final
summary message states `k` of 4 images generated, where `k` is exactly the
number of gathered slots that hold a path; concretely, with exactly one of
four image calls failing, three files are written and the summary reports
"3 out of 4". -/
theorem main_summary_count :
    (∀ (ts : String) (s : ScenarioPair) (rest : List ScenarioPair)
        (env : Nat → ImgOutcome) (sched : List Nat),
      Event.consoleOut ("Slideshow generation complete! Generated "
          ++ toString (((main ts (.parsed (s :: rest)) env sched).results.filter
              pyTruthy).length)
          ++ " out of 4 images.")
        ∈ (main ts (.parsed (s :: rest)) env sched).events) ∧
    (((main "t0" (.parsed demoBatch) envOneFail [0, 1, 2, 3]).results.filter
        pyTruthy).length = 3 ∧
      (writesOf (main "t0" (.parsed demoBatch) envOneFail [0, 1, 2, 3]).events).length
        = 3 ∧
      Event.consoleOut "Slideshow generation complete! Generated 3 out of 4 images."
        ∈ (main "t0" (.parsed demoBatch) envOneFail [0, 1, 2, 3]).events) := by
  refine ⟨?_, ?_, ?_, ?_⟩
  · intro ts s rest env sched
    refine List.mem_append_right _ ?_
    simp [main, generate_scenarios]
  · rfl
  · rfl
  · decide

end ComicSlides
